import Mathlib

/-!
AQI dashboard: classifier, advisory lookup and alert policy.

A shallow embedding of the threshold chains and the `fetchAQIData` state update of
`src/App.js`. AQI readings are integers (`Int`); labels, advisories and colour tokens
are the literal strings of the source.
-/

namespace AQIDashboard

/-! ## Threshold chains (`src/App.js`, lines 150-223 and 316-320) -/

/-- The category label of an AQI value: `getAQICategory` (lines 150-157). -/
def getAQICategory (aqi : Int) : String :=
  if aqi ≤ 50 then "Good"
  else if aqi ≤ 100 then "Moderate"
  else if aqi ≤ 150 then "Unhealthy for Sensitive Groups"
  else if aqi ≤ 200 then "Unhealthy"
  else if aqi ≤ 300 then "Very Unhealthy"
  else "Hazardous"

/-- The one-sentence recommendation of an AQI value: `getHealthRecommendation`
(lines 160-167). -/
def getHealthRecommendation (aqi : Int) : String :=
  if aqi ≤ 50 then "Air quality is good. Enjoy outdoor activities."
  else if aqi ≤ 100 then "Air quality is acceptable. Unusually sensitive people should consider reducing prolonged outdoor exertion."
  else if aqi ≤ 150 then "Members of sensitive groups may experience health effects. Consider reducing prolonged outdoor activities."
  else if aqi ≤ 200 then "Everyone may begin to experience health effects. Limit outdoor activities."
  else if aqi ≤ 300 then "Health alert: everyone may experience more serious health effects. Avoid outdoor activities."
  else "Health warning: everyone may experience serious health effects. Stay indoors and keep activity levels low."

/-- The ordered instruction list of an AQI value: `getDetailedInstructions`
(lines 170-223). -/
def getDetailedInstructions (aqi : Int) : List String :=
  if aqi ≤ 50 then
    [ "Enjoy outdoor activities",
      "Perfect air quality for exercising outside",
      "No restrictions needed",
      "Great day for outdoor picnics and gatherings" ]
  else if aqi ≤ 100 then
    [ "Consider reducing prolonged outdoor exertion if you have respiratory issues",
      "Keep windows closed during peak traffic hours",
      "Stay hydrated when outside",
      "Monitor symptoms if you have asthma or allergies" ]
  else if aqi ≤ 150 then
    [ "Sensitive groups should limit outdoor activities",
      "Consider wearing a mask if you have respiratory conditions",
      "Keep windows closed",
      "Use air purifiers indoors if available",
      "Avoid exercising near busy roads" ]
  else if aqi ≤ 200 then
    [ "Everyone should reduce outdoor activities",
      "Wear masks when outside (N95 or equivalent recommended)",
      "Keep windows and doors closed",
      "Use air purifiers indoors",
      "Consider rescheduling outdoor events",
      "Stay hydrated and watch for symptoms" ]
  else if aqi ≤ 300 then
    [ "Avoid all outdoor activities",
      "Wear masks when outside (N95 required)",
      "Keep all windows and doors closed",
      "Run air purifiers continuously",
      "Create a clean air room in your home",
      "Check on elderly neighbors and those with health conditions",
      "Follow local health advisories" ]
  else
    [ "Stay indoors and keep activity levels low",
      "Create a sealed clean air room with purifiers",
      "Wear N95 masks if you must go outside",
      "Follow emergency instructions from local authorities",
      "Seek medical help if experiencing difficulty breathing",
      "Evacuate area if advised by officials",
      "Minimize all physical exertion" ]

/-- The colour of the AQI disc: the `backgroundColor` ternary chain over `aqiData.aqi`
(lines 316-320). -/
def backgroundColor (aqi : Int) : String :=
  if aqi ≤ 50 then "#48bb78"
  else if aqi ≤ 100 then "#ecc94b"
  else if aqi ≤ 150 then "#ed8936"
  else if aqi ≤ 200 then "#f56565"
  else if aqi ≤ 300 then "#9f7aea"
  else "#e53e3e"

/-! ## Alert policy and the `fetchAQIData` state update (`src/App.js`, lines 4-13, 53-96) -/

/-! The reading is a JavaScript Number. An integer read from the response body denotes the
nearest IEEE double, and the template literal of line 86 prints that double with
`Number::toString`: the shortest decimal that denotes it, in plain digits up to 21 digits
and in exponent form beyond. Integers up to `2 ^ 53` are doubles and are printed digit for
digit. -/

/-- The binary exponent of a positive integer: the position of its leading bit. -/
def binaryExponent (m : Nat) : Nat :=
  (Nat.toDigits 2 m).length - 1

/-- The Number that a non-negative integer denotes: the nearest double, a tie going to the
even significand; `none` when it overflows to `Infinity`. -/
def nearestDouble (m : Nat) : Option Nat :=
  if m ≤ 2 ^ 53 then some m
  else
    let q := binaryExponent m - 52
    let f := m / 2 ^ q
    let r := m % 2 ^ q
    let g := if 2 ^ q < 2 * r ∨ (2 * r = 2 ^ q ∧ f % 2 = 1) then f + 1 else f
    if 1024 ≤ (if g = 2 ^ 53 then q + 53 else q + 52) then none else some (g * 2 ^ q)

/-- Whether the decimal integer `d` denotes the double `x`, for a double `x` above `2 ^ 53`:
`d` lies between the midpoints to the two neighbouring doubles, the midpoints included
when the significand of `x` is even. -/
def roundsTo (x d : Nat) : Bool :=
  let q := binaryExponent x - 52
  let f := x / 2 ^ q
  let up := 2 ^ q
  let down := if f = 2 ^ 52 then 2 ^ (q - 1) else 2 ^ q
  decide ((2 * x < 2 * d + down ∧ 2 * d < 2 * x + up)
    ∨ (f % 2 = 0 ∧ (2 * d + down = 2 * x ∨ 2 * d = 2 * x + up)))

/-- The multiple of `p` that denotes the double `x`, if there is one; the nearer one when
both neighbours of `x` among the multiples of `p` do. -/
def candidateAt (x p : Nat) : Option Nat :=
  let lo := x / p * p
  let hi := lo + p
  match roundsTo x lo, roundsTo x hi with
  | true, true =>
    if x - lo < hi - x then some lo
    else if hi - x < x - lo then some hi
    else if (x / p) % 2 = 0 then some lo else some hi
  | true, false => some lo
  | false, true => some hi
  | false, false => none

/-- The decimal with the fewest significant digits that denotes the double `x`: the
coarsest power of ten with a multiple that denotes `x`. -/
def shortestDecimal (x : Nat) : Nat :=
  let n := (Nat.toDigits 10 x).length
  ((List.range n).reverse.findSome? (fun i => candidateAt x (10 ^ i))).getD x

/-- The text of `Number::toString` for the positive integer `d` chosen by
`shortestDecimal`: plain digits up to 21 digits, otherwise the significant digits, a
point after the first one when there are several, and `e+` with the exponent. -/
def formatDecimal (d : Nat) : String :=
  let ds := Nat.toDigits 10 d
  let n := ds.length
  if n ≤ 21 then String.mk ds
  else
    match (ds.reverse.dropWhile (fun c => c == '0')).reverse with
    | [] => "0"
    | c :: rest =>
      if rest.isEmpty then String.mk [c] ++ "e+" ++ toString (n - 1)
      else String.mk (c :: '.' :: rest) ++ "e+" ++ toString (n - 1)

/-- The text that a template literal substitutes for a Number read from the integer `v`. -/
def numberToString (v : Int) : String :=
  if v.natAbs ≤ 2 ^ 53 then toString v
  else
    (if v < 0 then "-" else "") ++
      match nearestDouble v.natAbs with
      | none => "Infinity"
      | some x => formatDecimal (shortestDecimal x)

/-- The alert text: the template literal of line 86. -/
def alertMessage (aqi : Int) : String :=
  "Alert: AQI is " ++ numberToString aqi ++ ", which is unhealthy!"

/-- The alert-list update of lines 85-89: above 100 the functional update
`prev => [...prev, message]`, otherwise `setAlerts([])`. -/
def updateAlerts (prev : List String) (aqi : Int) : List String :=
  if aqi > 100 then prev ++ [alertMessage aqi] else []

/-- The alert list after a run of successful fetches, starting from the initial state
`useState([])` of line 12 and applying the update of lines 85-89 once per reading. -/
def runAlerts (readings : List Int) : List String :=
  readings.foldl updateAlerts []

/-- The coordinates stored by `setLocation` (lines 20-23); they are only passed through
to the request. -/
structure Coordinates where
  latitude : Rat
  longitude : Rat
  deriving DecidableEq, Repr

/-- The fields of the API payload that the transformation of lines 68-79 reads:
`data.data.current.pollution.aqius`, `.aqicn` (possibly absent), `data.data.city`,
`data.data.state` (possibly absent) and `data.data.country`. -/
structure ApiData where
  aqius : Int
  aqicn : Option Int
  city : String
  state : Option String
  country : String
  deriving DecidableEq, Repr

/-- The record built at lines 68-79 and stored by `setAqiData`. -/
structure AqiData where
  aqi : Int
  category : String
  pm25 : Int
  pm10 : Int
  timestamp : String
  location : String
  deriving DecidableEq, Repr

/-- The component state: the ten `useState` hooks of lines 4-13. -/
structure State where
  location : Option Coordinates
  aqiData : Option AqiData
  loading : Bool
  error : Option String
  notificationsEnabled : Bool
  darkMode : Bool
  customLocationName : String
  showCustomLocation : Bool
  alerts : List String
  hourlyAqiData : List (String × Int)
  deriving DecidableEq, Repr

/-- The state right after mounting: the initial values of lines 4-13. -/
def State.initial : State :=
  { location := none, aqiData := none, loading := true, error := none,
    notificationsEnabled := false, darkMode := false, customLocationName := "",
    showCustomLocation := false, alerts := [], hourlyAqiData := [] }

/-- A request to the `nearest_city` endpoint (lines 57-59). -/
structure Request where
  latitude : Rat
  longitude : Rat
  key : String
  deriving DecidableEq, Repr

/-- What awaiting `fetch` and then `response.json()` can give: the promise rejects, or a
response arrives with its `ok` flag and a body that either has the fields read at lines
68-79 (`some`) or makes `response.json()` or the field accesses throw (`none`). -/
inductive FetchResult where
  | rejected
  | response (ok : Bool) (json : Option ApiData)
  deriving DecidableEq, Repr

/-- The key embedded at line 56. -/
def apiKey : String := "ac27ccc7-6f2a-46c0-b3ba-feeafeda4cd8"

/-- The error text of line 93. -/
def fetchErrorText : String := "Error fetching AQI data. Please try again later."

/-- The `catch` block of lines 91-95 applied to the state in which the exception was
raised: `setError(...)` and `setLoading(false)`. -/
def fetchFailed (s : State) : State :=
  { s with error := some fetchErrorText, loading := false }

/-- The record of lines 68-79, given the payload, the state and the current time. -/
def transformedData (s : State) (d : ApiData) (now : String) : AqiData :=
  { aqi := d.aqius,
    category := getAQICategory d.aqius,
    pm25 := d.aqius,
    pm10 := match d.aqicn with
      | some v => if v = 0 then 0 else v
      | none => 0,
    timestamp := now,
    location :=
      if s.showCustomLocation && s.customLocationName != "" then s.customLocationName
      else d.city ++ ", " ++ (match d.state with
        | some st => st
        | none => "") ++ " " ++ d.country }

/-- One call of `fetchAQIData` (lines 53-96): the state it leaves behind and the requests
it issued, in order. `net` answers a request, `now` is the time read at line 75. Building
the URL with no location stored raises inside the `try`, before any request. -/
def fetchAQIData (s : State) (net : Request → FetchResult) (now : String) :
    State × List Request :=
  let s1 := { s with loading := true }
  match s1.location with
  | none => (fetchFailed s1, [])
  | some c =>
    let req : Request := { latitude := c.latitude, longitude := c.longitude, key := apiKey }
    match net req with
    | FetchResult.rejected => (fetchFailed s1, [req])
    | FetchResult.response false _ => (fetchFailed s1, [req])
    | FetchResult.response true none => (fetchFailed s1, [req])
    | FetchResult.response true (some d) =>
      let t := transformedData s1 d now
      let s2 := { s1 with aqiData := some t }
      let s3 := { s2 with loading := false }
      ({ s3 with alerts := updateAlerts s3.alerts t.aqi }, [req])

/-! ## Per-band view of the specification -/

/-- A reading inside the band that carries the given category label: the band's inclusive
upper threshold (50, 100, 150, 200, 300) and 301 for the unbounded sixth band. The
per-band advisory of the specification (section 4.2) is the advisory at this reading. -/
def bandRepresentative (label : String) : Int :=
  if label = "Good" then 50
  else if label = "Moderate" then 100
  else if label = "Unhealthy for Sensitive Groups" then 150
  else if label = "Unhealthy" then 200
  else if label = "Very Unhealthy" then 300
  else 301

/-- The advisory record of the specification (section 3), without the label that keys
it: recommendation sentence, ordered instruction list, display colour. -/
structure Advisory where
  recommendation : String
  instructions : List String
  color : String
  deriving DecidableEq, Repr

/-- The per-band advisory lookup of the specification (section 4.2): one fixed record per
band, keyed by the band's category label and written out band by band. -/
def advisoryOfBand (label : String) : Advisory :=
  if label = "Good" then
    { recommendation := "Air quality is good. Enjoy outdoor activities.",
      instructions :=
        [ "Enjoy outdoor activities",
          "Perfect air quality for exercising outside",
          "No restrictions needed",
          "Great day for outdoor picnics and gatherings" ],
      color := "#48bb78" }
  else if label = "Moderate" then
    { recommendation := "Air quality is acceptable. Unusually sensitive people should consider reducing prolonged outdoor exertion.",
      instructions :=
        [ "Consider reducing prolonged outdoor exertion if you have respiratory issues",
          "Keep windows closed during peak traffic hours",
          "Stay hydrated when outside",
          "Monitor symptoms if you have asthma or allergies" ],
      color := "#ecc94b" }
  else if label = "Unhealthy for Sensitive Groups" then
    { recommendation := "Members of sensitive groups may experience health effects. Consider reducing prolonged outdoor activities.",
      instructions :=
        [ "Sensitive groups should limit outdoor activities",
          "Consider wearing a mask if you have respiratory conditions",
          "Keep windows closed",
          "Use air purifiers indoors if available",
          "Avoid exercising near busy roads" ],
      color := "#ed8936" }
  else if label = "Unhealthy" then
    { recommendation := "Everyone may begin to experience health effects. Limit outdoor activities.",
      instructions :=
        [ "Everyone should reduce outdoor activities",
          "Wear masks when outside (N95 or equivalent recommended)",
          "Keep windows and doors closed",
          "Use air purifiers indoors",
          "Consider rescheduling outdoor events",
          "Stay hydrated and watch for symptoms" ],
      color := "#f56565" }
  else if label = "Very Unhealthy" then
    { recommendation := "Health alert: everyone may experience more serious health effects. Avoid outdoor activities.",
      instructions :=
        [ "Avoid all outdoor activities",
          "Wear masks when outside (N95 required)",
          "Keep all windows and doors closed",
          "Run air purifiers continuously",
          "Create a clean air room in your home",
          "Check on elderly neighbors and those with health conditions",
          "Follow local health advisories" ],
      color := "#9f7aea" }
  else
    { recommendation := "Health warning: everyone may experience serious health effects. Stay indoors and keep activity levels low.",
      instructions :=
        [ "Stay indoors and keep activity levels low",
          "Create a sealed clean air room with purifiers",
          "Wear N95 masks if you must go outside",
          "Follow emergency instructions from local authorities",
          "Seek medical help if experiencing difficulty breathing",
          "Evacuate area if advised by officials",
          "Minimize all physical exertion" ],
      color := "#e53e3e" }

/-- The severity order on the labels: Good < Moderate < Unhealthy for Sensitive Groups <
Unhealthy < Very Unhealthy < Hazardous, as positions 0 to 5. -/
def severityRank (label : String) : Nat :=
  if label = "Good" then 0
  else if label = "Moderate" then 1
  else if label = "Unhealthy for Sensitive Groups" then 2
  else if label = "Unhealthy" then 3
  else if label = "Very Unhealthy" then 4
  else 5

/-! ## Theorems -/

/-- C1: for every non-negative integer AQI value the classifier returns one of the six
labels, each label is returned exactly on its band (`Good` on 0..50, `Moderate` on
51..100, `Unhealthy for Sensitive Groups` on 101..150, `Unhealthy` on 151..200,
`Very Unhealthy` on 201..300, `Hazardous` from 301 on), and the six band predicates
are jointly exhaustive and pairwise exclusive. -/
theorem getAQICategory_partition (n : Int) (hn : 0 ≤ n) :
    getAQICategory n ∈ ["Good", "Moderate", "Unhealthy for Sensitive Groups",
        "Unhealthy", "Very Unhealthy", "Hazardous"]
    ∧ (getAQICategory n = "Good" ↔ 0 ≤ n ∧ n ≤ 50)
    ∧ (getAQICategory n = "Moderate" ↔ 51 ≤ n ∧ n ≤ 100)
    ∧ (getAQICategory n = "Unhealthy for Sensitive Groups" ↔ 101 ≤ n ∧ n ≤ 150)
    ∧ (getAQICategory n = "Unhealthy" ↔ 151 ≤ n ∧ n ≤ 200)
    ∧ (getAQICategory n = "Very Unhealthy" ↔ 201 ≤ n ∧ n ≤ 300)
    ∧ (getAQICategory n = "Hazardous" ↔ 301 ≤ n)
    ∧ ([decide (0 ≤ n ∧ n ≤ 50), decide (51 ≤ n ∧ n ≤ 100), decide (101 ≤ n ∧ n ≤ 150),
        decide (151 ≤ n ∧ n ≤ 200), decide (201 ≤ n ∧ n ≤ 300), decide (301 ≤ n)].count true
        = 1) := by
  have hc : ([decide (0 ≤ n ∧ n ≤ 50), decide (51 ≤ n ∧ n ≤ 100), decide (101 ≤ n ∧ n ≤ 150),
      decide (151 ≤ n ∧ n ≤ 200), decide (201 ≤ n ∧ n ≤ 300), decide (301 ≤ n)].count true
      = 1) := by
    simp only [List.count_cons, List.count_nil, beq_iff_eq, decide_eq_true_eq]
    split_ifs <;> omega
  refine ⟨?_, ?_, ?_, ?_, ?_, ?_, ?_, hc⟩ <;> unfold getAQICategory <;> split_ifs <;>
    simp <;> omega

/-- Witness for C1 at the reading 75. -/
theorem getAQICategory_partition_witness :
    (0 : Int) ≤ 75 ∧ getAQICategory 75 = "Moderate" :=
  ⟨by decide, ((getAQICategory_partition 75 (by decide)).2.2.1).mpr (by decide)⟩

/-- C2: the classifier is exact at every band boundary. -/
theorem getAQICategory_boundaries :
    getAQICategory 50 = "Good"
    ∧ getAQICategory 51 = "Moderate"
    ∧ getAQICategory 100 = "Moderate"
    ∧ getAQICategory 101 = "Unhealthy for Sensitive Groups"
    ∧ getAQICategory 150 = "Unhealthy for Sensitive Groups"
    ∧ getAQICategory 151 = "Unhealthy"
    ∧ getAQICategory 200 = "Unhealthy"
    ∧ getAQICategory 201 = "Very Unhealthy"
    ∧ getAQICategory 300 = "Very Unhealthy"
    ∧ getAQICategory 301 = "Hazardous" := by
  simp [getAQICategory]

/-- Integers up to `2 ^ 53` in absolute value are printed digit for digit. -/
theorem numberToString_of_natAbs_le (v : Int) (h : v.natAbs ≤ 2 ^ 53) :
    numberToString v = toString v := by
  unfold numberToString
  rw [if_pos h]

/-- C3 as stated fails: the reading `10 ^ 21`, an integer that is a double, is above 100,
and the message appended for it reads `1e+21`, not the decimal digits of the reading. -/
theorem updateAlerts_exponent_form :
    updateAlerts [] 1000000000000000000000 = ["Alert: AQI is 1e+21, which is unhealthy!"]
    ∧ updateAlerts [] 1000000000000000000000
        ≠ [] ++ ["Alert: AQI is " ++ toString (1000000000000000000000 : Int)
                  ++ ", which is unhealthy!"] := by
  decide

/-- C3, amended: one step of the alert-list update. For every prior list and every
integer reading, a reading above 100 and at most `2 ^ 53` appends exactly the one message
built from the reading in decimal to the prior list, and a reading of at most 100 gives
the empty list whatever the prior list was; a reading of 100 adds nothing, a reading of
101 adds `Alert: AQI is 101, which is unhealthy!`, and a following reading of 80 empties
the list. -/
theorem updateAlerts_rule (prev : List String) (v : Int) :
    (100 < v → v ≤ 9007199254740992 → updateAlerts prev v
        = prev ++ ["Alert: AQI is " ++ toString v ++ ", which is unhealthy!"])
    ∧ (v ≤ 100 → updateAlerts prev v = [])
    ∧ updateAlerts prev 100 = []
    ∧ updateAlerts prev 101 = prev ++ ["Alert: AQI is 101, which is unhealthy!"]
    ∧ updateAlerts (updateAlerts prev 101) 80 = [] := by
  refine ⟨?_, ?_, ?_, ?_, ?_⟩
  · intro h hb
    have hs : v.natAbs ≤ 2 ^ 53 := by omega
    have hgt : v > 100 := h
    simp [updateAlerts, alertMessage, hgt, numberToString_of_natAbs_le v hs]
  · intro h
    have h2 : ¬ v > 100 := by omega
    simp [updateAlerts, h2]
  · simp [updateAlerts]
  · have hm : alertMessage 101 = "Alert: AQI is 101, which is unhealthy!" := by decide
    simp [updateAlerts, hm]
  · simp [updateAlerts]

/-- Witness for C3: the reading 120 after one earlier alert. -/
theorem updateAlerts_rule_witness :
    updateAlerts ["Alert: AQI is 101, which is unhealthy!"] 120
      = ["Alert: AQI is 101, which is unhealthy!", "Alert: AQI is 120, which is unhealthy!"] :=
  ((updateAlerts_rule ["Alert: AQI is 101, which is unhealthy!"] 120).1 (by decide)
    (by decide)).trans (by decide)

/-- The recommendation of a reading is the recommendation of its band. -/
theorem getHealthRecommendation_band (a : Int) :
    getHealthRecommendation a = getHealthRecommendation (bandRepresentative (getAQICategory a)) := by
  unfold getAQICategory
  split_ifs <;> simp [bandRepresentative, getHealthRecommendation, *]

/-- The instruction list of a reading is the instruction list of its band. -/
theorem getDetailedInstructions_band (a : Int) :
    getDetailedInstructions a = getDetailedInstructions (bandRepresentative (getAQICategory a)) := by
  unfold getAQICategory
  split_ifs <;> simp [bandRepresentative, getDetailedInstructions, *]

/-- The colour of a reading is the colour of its band. -/
theorem backgroundColor_band (a : Int) :
    backgroundColor a = backgroundColor (bandRepresentative (getAQICategory a)) := by
  unfold getAQICategory
  split_ifs <;> simp [bandRepresentative, backgroundColor, *]

/-- The label of a reading is determined by its colour. -/
theorem getAQICategory_of_backgroundColor (a b : Int)
    (h : backgroundColor a = backgroundColor b) : getAQICategory a = getAQICategory b := by
  unfold backgroundColor at h
  unfold getAQICategory
  split_ifs at h ⊢ <;> first | rfl | (exfalso; revert h; decide)

/-- The label of a reading is determined by its recommendation. -/
theorem getAQICategory_of_getHealthRecommendation (a b : Int)
    (h : getHealthRecommendation a = getHealthRecommendation b) :
    getAQICategory a = getAQICategory b := by
  unfold getHealthRecommendation at h
  unfold getAQICategory
  split_ifs at h ⊢ <;> first | rfl | (exfalso; revert h; decide)

/-- The label of a reading is determined by its instruction list. -/
theorem getAQICategory_of_getDetailedInstructions (a b : Int)
    (h : getDetailedInstructions a = getDetailedInstructions b) :
    getAQICategory a = getAQICategory b := by
  unfold getDetailedInstructions at h
  unfold getAQICategory
  split_ifs at h ⊢ <;> first | rfl | (exfalso; revert h; decide)

/-- Each of the three advisory chains is the classifier followed by the per-band lookup. -/
theorem advisoryOfBand_getAQICategory (a : Int) :
    advisoryOfBand (getAQICategory a)
      = { recommendation := getHealthRecommendation a,
          instructions := getDetailedInstructions a,
          color := backgroundColor a } := by
  unfold getAQICategory getHealthRecommendation getDetailedInstructions backgroundColor
  split_ifs <;> simp [advisoryOfBand]

/-- C4 as stated fails: the negative reading -1 is not rejected, it is classified `Good`
and receives the advisory of the lowest band. -/
theorem negative_reading_not_rejected :
    getAQICategory (-1) = "Good"
    ∧ getHealthRecommendation (-1) = "Air quality is good. Enjoy outdoor activities."
    ∧ getDetailedInstructions (-1) =
        [ "Enjoy outdoor activities", "Perfect air quality for exercising outside",
          "No restrictions needed", "Great day for outdoor picnics and gatherings" ] := by
  simp [getAQICategory, getHealthRecommendation, getDetailedInstructions]

/-- C4, amended: the three chains perform no validation; every negative integer reading
falls into the first branch, so it is labelled `Good` and gets the recommendation and the
instruction list of the lowest band. -/
theorem negative_reading_lowest_band (n : Int) (hn : n < 0) :
    getAQICategory n = "Good"
    ∧ getHealthRecommendation n = "Air quality is good. Enjoy outdoor activities."
    ∧ getDetailedInstructions n =
        [ "Enjoy outdoor activities", "Perfect air quality for exercising outside",
          "No restrictions needed", "Great day for outdoor picnics and gatherings" ] := by
  have h : n ≤ 50 := by omega
  simp [getAQICategory, getHealthRecommendation, getDetailedInstructions, h]

/-- Witness for the amended C4 at the reading -7. -/
theorem negative_reading_lowest_band_witness :
    (-7 : Int) < 0 ∧ getAQICategory (-7) = "Good" :=
  ⟨by decide, (negative_reading_lowest_band (-7) (by decide)).1⟩

/-- C5: for every integer reading the instruction list has between 3 and 7 entries, each
entry is a non-empty string, and the recommendation is a non-empty string. -/
theorem advisory_complete (n : Int) :
    3 ≤ (getDetailedInstructions n).length
    ∧ (getDetailedInstructions n).length ≤ 7
    ∧ (getDetailedInstructions n).all (fun s => decide (s ≠ "")) = true
    ∧ getHealthRecommendation n ≠ "" := by
  unfold getDetailedInstructions getHealthRecommendation
  split_ifs <;> simp

/-- C6: the advisory is a function of the band alone, and the four threshold chains cut
the integers at the same points. For all integer readings, equal category labels are
equivalent to equal recommendations, to equal instruction lists (same strings in the same
order) and to equal colours; and the classifier followed by the per-band lookup gives
exactly the recommendation, the instruction list and the colour that the three chains
compute from the reading. -/
theorem advisory_function_of_band (a b : Int) :
    (getAQICategory a = getAQICategory b
        ↔ getHealthRecommendation a = getHealthRecommendation b)
    ∧ (getAQICategory a = getAQICategory b
        ↔ getDetailedInstructions a = getDetailedInstructions b)
    ∧ (getAQICategory a = getAQICategory b ↔ backgroundColor a = backgroundColor b)
    ∧ advisoryOfBand (getAQICategory a)
        = { recommendation := getHealthRecommendation a,
            instructions := getDetailedInstructions a,
            color := backgroundColor a }
    ∧ getHealthRecommendation a = getHealthRecommendation (bandRepresentative (getAQICategory a))
    ∧ getDetailedInstructions a = getDetailedInstructions (bandRepresentative (getAQICategory a))
    ∧ backgroundColor a = backgroundColor (bandRepresentative (getAQICategory a)) := by
  refine ⟨⟨?_, getAQICategory_of_getHealthRecommendation a b⟩,
    ⟨?_, getAQICategory_of_getDetailedInstructions a b⟩,
    ⟨?_, getAQICategory_of_backgroundColor a b⟩,
    advisoryOfBand_getAQICategory a,
    getHealthRecommendation_band a, getDetailedInstructions_band a, backgroundColor_band a⟩
  · intro h
    rw [getHealthRecommendation_band a, getHealthRecommendation_band b, h]
  · intro h
    rw [getDetailedInstructions_band a, getDetailedInstructions_band b, h]
  · intro h
    rw [backgroundColor_band a, backgroundColor_band b, h]

/-- C7: the colour is one fixed token per band, in band order: every reading's label and
colour form one of the six documented pairs, the colours along the bands in ascending
order are the six documented tokens, these are pairwise distinct, and two readings have
the same colour exactly when they have the same label. -/
theorem backgroundColor_per_band (a b : Int) :
    (getAQICategory a, backgroundColor a) ∈
        [ ("Good", "#48bb78"), ("Moderate", "#ecc94b"),
          ("Unhealthy for Sensitive Groups", "#ed8936"), ("Unhealthy", "#f56565"),
          ("Very Unhealthy", "#9f7aea"), ("Hazardous", "#e53e3e") ]
    ∧ [0, 51, 101, 151, 201, 301].map backgroundColor
        = ["#48bb78", "#ecc94b", "#ed8936", "#f56565", "#9f7aea", "#e53e3e"]
    ∧ ([0, 51, 101, 151, 201, 301].map backgroundColor).Nodup
    ∧ (backgroundColor a = backgroundColor b ↔ getAQICategory a = getAQICategory b) := by
  refine ⟨?_, by decide, by decide, ?_⟩
  · unfold getAQICategory backgroundColor
    split_ifs <;> simp
  · constructor
    · exact getAQICategory_of_backgroundColor a b
    · intro h
      rw [backgroundColor_band a, backgroundColor_band b, h]

/-- One more reading at the end of a run is one more step of the alert update. -/
theorem runAlerts_concat (rs : List Int) (v : Int) :
    runAlerts (rs ++ [v]) = updateAlerts (runAlerts rs) v := by
  simp [runAlerts, List.foldl_append]

/-- The alert list after a run is one message per reading of the maximal trailing run of
readings above 100, in reading order. -/
theorem runAlerts_eq_trailing (rs : List Int) :
    runAlerts rs = (rs.rtakeWhile (fun v => decide (v > 100))).map alertMessage := by
  induction rs using List.reverseRecOn with
  | nil => simp [runAlerts]
  | append_singleton rs v ih =>
    rw [runAlerts_concat, List.rtakeWhile_concat, ih]
    by_cases h : v > 100
    · simp [updateAlerts, h]
    · simp [updateAlerts, h]

/-- C8: accumulate/clear over a whole run. Starting from the empty alert list, the list
after any finite sequence of integer readings is exactly one message per reading of the
maximal trailing run of readings above 100, in reading order and with duplicates kept
(two readings of 150 give two identical entries); its length is the length of that
trailing run, and it is non-empty exactly when the most recent reading exceeds 100. -/
theorem runAlerts_trailing_run (rs : List Int) :
    runAlerts rs = (rs.rtakeWhile (fun v => decide (v > 100))).map alertMessage
    ∧ (runAlerts rs).length = (rs.rtakeWhile (fun v => decide (v > 100))).length
    ∧ (runAlerts rs ≠ [] ↔ ∃ v, rs.getLast? = some v ∧ 100 < v)
    ∧ runAlerts [150, 150]
        = ["Alert: AQI is 150, which is unhealthy!", "Alert: AQI is 150, which is unhealthy!"] := by
  refine ⟨runAlerts_eq_trailing rs, ?_, ?_, by decide⟩
  · rw [runAlerts_eq_trailing, List.length_map]
  · induction rs using List.reverseRecOn with
    | nil => simp [runAlerts]
    | append_singleton rs v _ =>
      rw [runAlerts_concat]
      by_cases h : 100 < v
      · simp [updateAlerts, h]
      · simp [updateAlerts, h]

/-- A successful fetch stores the transformed reading, clears `loading`, applies the alert
update to the stored alert list and issues exactly one request. -/
theorem fetchAQIData_success (s : State) (net : Request → FetchResult) (now : String)
    (c : Coordinates) (d : ApiData) (hloc : s.location = some c)
    (hnet : net { latitude := c.latitude, longitude := c.longitude, key := apiKey }
      = FetchResult.response true (some d)) :
    (fetchAQIData s net now).1
        = { s with aqiData := some (transformedData s d now), loading := false,
                   alerts := updateAlerts s.alerts d.aqius }
    ∧ (fetchAQIData s net now).2.length = 1 := by
  unfold fetchAQIData
  simp [hloc, hnet, transformedData]

/-- C9: a failed current-reading fetch is atomic with respect to the reading. When the call
does not end with an OK response whose body can be read (no location is stored, the
request is rejected, the response is not OK, or reading its body raises), it leaves the
error text of line 93 in the error field and `loading` false, changes no other field (the stored reading and the alert list in
particular), and has issued at most one request. -/
theorem fetchAQIData_failure (s : State) (net : Request → FetchResult) (now : String)
    (hfail : ∀ c d, s.location = some c →
      net { latitude := c.latitude, longitude := c.longitude, key := apiKey }
        ≠ FetchResult.response true (some d)) :
    (fetchAQIData s net now).1
        = { s with error := some "Error fetching AQI data. Please try again later.",
                   loading := false }
    ∧ (fetchAQIData s net now).1.error = some "Error fetching AQI data. Please try again later."
    ∧ (fetchAQIData s net now).1.loading = false
    ∧ (fetchAQIData s net now).1.aqiData = s.aqiData
    ∧ (fetchAQIData s net now).1.alerts = s.alerts
    ∧ (fetchAQIData s net now).2.length ≤ 1 := by
  have key : (fetchAQIData s net now).1
        = { s with error := some "Error fetching AQI data. Please try again later.",
                   loading := false }
      ∧ (fetchAQIData s net now).2.length ≤ 1 := by
    unfold fetchAQIData
    cases hloc : s.location with
    | none => simp [hloc, fetchFailed, fetchErrorText]
    | some c =>
      have hne : ∀ d, net { latitude := c.latitude, longitude := c.longitude, key := apiKey }
          ≠ FetchResult.response true (some d) := fun d => hfail c d hloc
      simp only [hloc]
      cases hr : net { latitude := c.latitude, longitude := c.longitude, key := apiKey } with
      | rejected => simp [fetchFailed, fetchErrorText, hloc]
      | response ok json =>
        cases ok with
        | false => simp [fetchFailed, fetchErrorText, hloc]
        | true =>
          cases json with
          | none => simp [fetchFailed, fetchErrorText, hloc]
          | some d => exact absurd hr (hne d)
  refine ⟨key.1, ?_, ?_, ?_, ?_, key.2⟩ <;> rw [key.1]

/-- Witness for C9: a stored reading of 120 with one alert survives a non-OK response. -/
theorem fetchAQIData_failure_witness :
    (fetchAQIData
        { State.initial with
            location := some { latitude := 19, longitude := 73 },
            aqiData := some { aqi := 120, category := "Unhealthy for Sensitive Groups",
                              pm25 := 120, pm10 := 60, timestamp := "t0", location := "Pune" },
            loading := false,
            alerts := ["Alert: AQI is 120, which is unhealthy!"] }
        (fun _ => FetchResult.response false none) "t1").1.alerts
      = ["Alert: AQI is 120, which is unhealthy!"] :=
  (fetchAQIData_failure _ (fun _ => FetchResult.response false none) "t1"
    (fun _ _ _ h => by cases h)).2.2.2.2.1

/-- C10: classification is monotone in severity. For integer readings `a ≤ b` the label
of `a` is at most the label of `b` in the order Good < Moderate < Unhealthy for Sensitive
Groups < Unhealthy < Very Unhealthy < Hazardous, the instruction list of `a` is no longer
than that of `b`, and the instruction counts along the six bands are 4, 4, 5, 6, 7, 7. -/
theorem classification_monotone (a b : Int) (h : a ≤ b) :
    severityRank (getAQICategory a) ≤ severityRank (getAQICategory b)
    ∧ (getDetailedInstructions a).length ≤ (getDetailedInstructions b).length
    ∧ [0, 51, 101, 151, 201, 301].map (fun n => (getDetailedInstructions n).length)
        = [4, 4, 5, 6, 7, 7]
    ∧ [0, 51, 101, 151, 201, 301].map (fun n => severityRank (getAQICategory n))
        = [0, 1, 2, 3, 4, 5] := by
  refine ⟨?_, ?_, by decide, by decide⟩
  · unfold getAQICategory
    split_ifs <;> simp [severityRank] <;> omega
  · unfold getDetailedInstructions
    split_ifs <;> simp <;> omega

/-- Witness for C10 at the readings 40 and 250. -/
theorem classification_monotone_witness :
    (40 : Int) ≤ 250
    ∧ severityRank (getAQICategory 40) ≤ severityRank (getAQICategory 250) :=
  ⟨by decide, (classification_monotone 40 250 (by decide)).1⟩

end AQIDashboard
